import Mathlib

/-!
Verification of the `yew-tiptap` component (`src/tiptap_instance.rs`,
`src/lib.rs`) against its specification.

The component is glue code around an external editor library accessed
through the `js_tiptap` bridge module.  We embed the component shallowly:
every lifecycle method and the `update` message handler is a pure Lean
function returning the list of observable effects it performs, in order.
Effects cover both directions of the boundary: outbound bridge calls
(`js_tiptap::create`, `js_tiptap::toggle_bold`, ...) and emissions to the
host's callbacks (`on_link`, `on_selection_change`, `on_content_change`),
plus the diagnostic log written on a deserialization failure.

The fallible bridge query `js_tiptap::get_state` is embedded by passing
its result (`Except String State`, mirroring `Result<State, serde Error>`)
as an explicit oracle argument to the functions that may perform it.
-/

namespace YewTiptap

/-- Modelled from the spec: `js_tiptap::HeadingLevel` lives in the
`js_tiptap` bridge module, which is not among the given source files.
The spec (section 4.2) lists `toggleHeading(id, level)` with the component
dispatching levels H1, H2 and H3. -/
inductive HeadingLevel
  | H1
  | H2
  | H3
deriving DecidableEq, Repr

/-- Modelled from the spec: `js_tiptap::State` (the `SelectionState`
snapshot) lives in the `js_tiptap` bridge module, which is not among the
given source files.  Sections 3 and 6 of the spec describe it as an object
holding the active heading level, the active marks (bold, italic, strike),
the active alignment and the active block type, with a default/empty value
used as the fallback.  All fields default to the inactive value. -/
structure State where
  heading : Option HeadingLevel := none
  bold : Bool := false
  italic : Bool := false
  strike : Bool := false
  blockquote : Bool := false
  highlight : Bool := false
  align : Option String := none
deriving DecidableEq, Repr

/-- The default/empty selection state, mirroring `Default::default()` on
`js_tiptap::State`: every field takes its inactive default. -/
def State.default : State := {}

instance : Inhabited State := ⟨State.default⟩

/-- `pub type SelectionState = js_tiptap::State;` -/
def SelectionState := State

/-- `pub struct Selection { pub state: SelectionState }` from
`src/tiptap_instance.rs`. -/
structure Selection where
  state : State
deriving DecidableEq, Repr

/-- `pub struct Content { pub content: String }` from
`src/tiptap_instance.rs`. -/
structure Content where
  content : String
deriving DecidableEq, Repr

/-- `pub struct ImageResource { title, alt, url }` from `src/lib.rs`. -/
structure ImageResource where
  title : String
  alt : String
  url : String
deriving DecidableEq, Repr

/-- The `Msg` enum from `src/tiptap_instance.rs`.  The two leading
variants are the internal notifications dispatched by the bridge's
registered callback adapters; the rest are host-invokable commands. -/
inductive Msg
  | _SelectionChanged
  | _ContentChanged (content : String)
  | H1
  | H2
  | H3
  | Paragraph
  | Bold
  | Italic
  | Strike
  | Blockquote
  | Highlight
  | AlignLeft
  | AlignCenter
  | AlignRight
  | AlignJustify
  | SetImage (resource : ImageResource)
deriving DecidableEq, Repr

/-- The component's `Scope` handle (`yew::html::Scope<TiptapInstance>`):
the value cloned by `ctx.link().clone()` and published through `on_link`.
Opaque to this layer; one handle per mounted component. -/
inductive Scope
  | mk
deriving DecidableEq, Repr

/-- The two closure adapters built in `create` and stored on the
component: `on_change` (wrapping the `_ContentChanged` dispatch) and
`on_selection` (wrapping the `_SelectionChanged` dispatch).  Opaque
function values; we track their identity only. -/
inductive ClosureTok
  | changeAdapter
  | selectionAdapter
deriving DecidableEq, Repr

/-- The `Props` struct from `src/tiptap_instance.rs`.  `on_link` is a
mandatory `Callback` and is represented implicitly: invoking it is the
`emitLink` effect.  The two optional callbacks are represented by their
presence (`Option Unit` mirroring `Option<Callback<_>>`); invoking them
is the `emitSelection` / `emitContent` effect. -/
structure Props where
  id : String
  cssClass : Option String
  content : String
  disabled : Bool
  on_selection_change : Option Unit
  on_content_change : Option Unit
deriving DecidableEq, Repr

/-- One observable effect at the component's boundary, in the order the
code performs them: a call into the `js_tiptap` bridge, an emission to a
host callback, or a diagnostic log line. -/
inductive Effect
  | emitLink (handle : Option Scope)
  | emitSelection (s : Selection)
  | emitContent (c : Content)
  | logError (err : String)
  | jsCreate (id : String) (initialContent : String) (editable : Bool)
      (onChange : ClosureTok) (onSelectionChange : ClosureTok)
  | jsGetState (id : String)
  | jsToggleHeading (id : String) (level : HeadingLevel)
  | jsSetParagraph (id : String)
  | jsToggleBold (id : String)
  | jsToggleItalic (id : String)
  | jsToggleStrike (id : String)
  | jsToggleBlockquote (id : String)
  | jsToggleHighlight (id : String)
  | jsSetTextAlignLeft (id : String)
  | jsSetTextAlignCenter (id : String)
  | jsSetTextAlignRight (id : String)
  | jsSetTextAlignJustify (id : String)
  | jsSetImage (id : String) (url : String) (alt : String) (title : String)
deriving DecidableEq, Repr

/-- The `TiptapInstance` component struct: it owns exactly the two
closure adapters for the lifetime of the component. -/
structure TiptapInstance where
  on_change : ClosureTok
  on_selection : ClosureTok
deriving DecidableEq, Repr

/-- `fetch_selection_state` from `src/tiptap_instance.rs`: performs the
`js_tiptap::get_state(props.id)` query; on success returns the parsed
state, on a deserialization error logs the error and falls back to
`Default::default()`.  The query's outcome is the oracle argument. -/
def fetch_selection_state (props : Props) (getStateResult : Except String State) :
    List Effect × State :=
  match getStateResult with
  | Except.ok state => ([Effect.jsGetState props.id], state)
  | Except.error err => ([Effect.jsGetState props.id, Effect.logError err], State.default)

/-- `TiptapInstance::create`: emits `None` to `on_link` (linking is
deferred to `rendered`), builds the two closure adapters and stores them
on the component. -/
def TiptapInstance.create (_props : Props) : List Effect × TiptapInstance :=
  ([Effect.emitLink none],
   { on_change := ClosureTok.changeAdapter, on_selection := ClosureTok.selectionAdapter })

/-- `TiptapInstance::destroy`: emits a final `None` to `on_link`. -/
def TiptapInstance.destroy (_self : TiptapInstance) (_props : Props) : List Effect :=
  [Effect.emitLink none]

/-- `TiptapInstance::rendered`: on the first render only, calls
`js_tiptap::create(id, content, !disabled, &self.on_change,
&self.on_selection)` and then emits `Some(ctx.link().clone())` to
`on_link`. -/
def TiptapInstance.rendered (self : TiptapInstance) (props : Props)
    (first_render : Bool) : List Effect :=
  if first_render then
    [Effect.jsCreate props.id props.content (!props.disabled) self.on_change self.on_selection,
     Effect.emitLink (some Scope.mk)]
  else
    []

/-- `TiptapInstance::update`: the message handler.  Returns the ordered
list of effects and the `bool` re-render flag the Rust function returns.
`getStateResult` is the oracle for the (at most one) `get_state` query. -/
def TiptapInstance.update (props : Props) (getStateResult : Except String State)
    (msg : Msg) : List Effect × Bool :=
  match msg with
  | Msg._SelectionChanged =>
      match props.on_selection_change with
      | some _ =>
          let fetched := fetch_selection_state props getStateResult
          (fetched.1 ++ [Effect.emitSelection { state := fetched.2 }], false)
      | none => ([], false)
  | Msg._ContentChanged content =>
      match props.on_content_change with
      | some _ => ([Effect.emitContent { content := content }], false)
      | none => ([], false)
  | Msg.H1 => ([Effect.jsToggleHeading props.id HeadingLevel.H1], true)
  | Msg.H2 => ([Effect.jsToggleHeading props.id HeadingLevel.H2], true)
  | Msg.H3 => ([Effect.jsToggleHeading props.id HeadingLevel.H3], true)
  | Msg.Paragraph => ([Effect.jsSetParagraph props.id], true)
  | Msg.Bold => ([Effect.jsToggleBold props.id], true)
  | Msg.Italic => ([Effect.jsToggleItalic props.id], true)
  | Msg.Strike => ([Effect.jsToggleStrike props.id], true)
  | Msg.Blockquote => ([Effect.jsToggleBlockquote props.id], true)
  | Msg.Highlight => ([Effect.jsToggleHighlight props.id], true)
  | Msg.AlignLeft => ([Effect.jsSetTextAlignLeft props.id], true)
  | Msg.AlignCenter => ([Effect.jsSetTextAlignCenter props.id], true)
  | Msg.AlignRight => ([Effect.jsSetTextAlignRight props.id], true)
  | Msg.AlignJustify => ([Effect.jsSetTextAlignJustify props.id], true)
  | Msg.SetImage resource =>
      ([Effect.jsSetImage props.id resource.url resource.alt resource.title], true)

/-- The rendered markup of `TiptapInstance::view`: one `div` carrying the
props id and the css class (defaulting to "tiptap-instance"). -/
structure Html where
  id : String
  cssClass : String
deriving DecidableEq, Repr

/-- `TiptapInstance::view`. -/
def TiptapInstance.view (_self : TiptapInstance) (props : Props) : Html :=
  { id := props.id, cssClass := props.cssClass.getD "tiptap-instance" }

/-- Mounting the component: the yew lifecycle runs `create` and then
`rendered` with `first_render = true`.  Returns the concatenated effect
trace. -/
def mountTrace (props : Props) : List Effect :=
  let created := TiptapInstance.create props
  created.1 ++ created.2.rendered props true

/-- Classifies the internal notification messages (`_SelectionChanged`,
`_ContentChanged`), as opposed to the host-invokable commands. -/
def Msg.isInternal : Msg → Bool
  | Msg._SelectionChanged => true
  | Msg._ContentChanged _ => true
  | _ => false

/-- The sequence of values emitted to the host's `on_link` callback in a
trace, in order. -/
def linkEmissions (tr : List Effect) : List (Option Scope) :=
  tr.filterMap fun e =>
    match e with
    | Effect.emitLink h => some h
    | _ => none

/-- The sequence of `Selection` values emitted to the host's
`on_selection_change` callback in a trace, in order. -/
def selectionEmissions (tr : List Effect) : List Selection :=
  tr.filterMap fun e =>
    match e with
    | Effect.emitSelection s => some s
    | _ => none

/-- The sequence of `Content` values emitted to the host's
`on_content_change` callback in a trace, in order. -/
def contentEmissions (tr : List Effect) : List Content :=
  tr.filterMap fun e =>
    match e with
    | Effect.emitContent c => some c
    | _ => none

/-- Counts the `js_tiptap::get_state` queries in a trace. -/
def countGetState (tr : List Effect) : Nat :=
  (tr.filter fun e =>
    match e with
    | Effect.jsGetState _ => true
    | _ => false).length

/-- Counts the `js_tiptap::create` calls in a trace. -/
def countJsCreate (tr : List Effect) : Nat :=
  (tr.filter fun e =>
    match e with
    | Effect.jsCreate _ _ _ _ _ => true
    | _ => false).length

/-- All effects of a trace that reach the host (emissions to `on_link`,
`on_selection_change` or `on_content_change`). -/
def hostEmissions (tr : List Effect) : List Effect :=
  tr.filter fun e =>
    match e with
    | Effect.emitLink _ => true
    | Effect.emitSelection _ => true
    | Effect.emitContent _ => true
    | _ => false

/-- A concrete props configuration with neither optional callback
registered; used as a concrete evaluation point. -/
def propsNoCallbacks : Props :=
  { id := "editor", cssClass := none, content := "", disabled := false,
    on_selection_change := none, on_content_change := none }

/-- A concrete props configuration with both optional callbacks
registered, `disabled = false` and initial content "<p>start</p>"; used
as a concrete evaluation point. -/
def propsAllCallbacks : Props :=
  { id := "editor", cssClass := none, content := "<p>start</p>", disabled := false,
    on_selection_change := some (), on_content_change := some () }

/-- Claim C1: for every props configuration, mounting the component
emits `None` to `on_link` (in `create`) strictly before any
`Some(handle)`, and exactly one `Some(handle)` is emitted per successful
attach: in `rendered`, only on the first render, after
`js_tiptap::create`.  The first conjunct shows the exact sequence of
`on_link` emissions (`None` then exactly one `Some`); the second shows
the whole mount trace, with `js_tiptap::create` strictly before the
`Some` emission; the third shows a non-first render emits nothing. -/
theorem mount_link_protocol (props : Props) :
    linkEmissions (mountTrace props) = [none, some Scope.mk] ∧
    mountTrace props =
      [Effect.emitLink none,
       Effect.jsCreate props.id props.content (!props.disabled)
         ClosureTok.changeAdapter ClosureTok.selectionAdapter,
       Effect.emitLink (some Scope.mk)] ∧
    (∀ self : TiptapInstance, self.rendered props false = []) :=
  ⟨rfl, rfl, fun _ => rfl⟩

/-- Claim C2, counterexample: the claim asserts that EVERY handled
`_SelectionChanged` message performs exactly one `js_tiptap::get_state`
query, but with `on_selection_change` unregistered the handler performs
no query at all: on `propsNoCallbacks` the trace holds zero `get_state`
calls, not one. -/
theorem selection_query_count_counterexample :
    countGetState
        (TiptapInstance.update propsNoCallbacks (Except.ok State.default)
          Msg._SelectionChanged).1 = 0 ∧
    ¬ countGetState
        (TiptapInstance.update propsNoCallbacks (Except.ok State.default)
          Msg._SelectionChanged).1 = 1 :=
  ⟨rfl, by decide⟩

/-- Claim C2, amended: for every `_SelectionChanged` message handled by
`update` while an `on_selection_change` callback is registered, exactly
one `js_tiptap::get_state` query is performed and exactly one `Selection`
value derived from that query's result is emitted to the host — never
more than one emission per notification.  (Without a registered callback
the handler performs no query and emits nothing; see the claim on
unregistered callbacks.) -/
theorem selection_query_amended (props : Props) (res : Except String State)
    (h : props.on_selection_change = some ()) :
    countGetState (TiptapInstance.update props res Msg._SelectionChanged).1 = 1 ∧
    selectionEmissions (TiptapInstance.update props res Msg._SelectionChanged).1 =
      [{ state := (fetch_selection_state props res).2 }] := by
  cases res with
  | ok s =>
      simp [TiptapInstance.update, h, fetch_selection_state, countGetState,
        selectionEmissions]
  | error e =>
      simp [TiptapInstance.update, h, fetch_selection_state, countGetState,
        selectionEmissions]

/-- Witness for the amended claim C2 at a concrete input. -/
theorem selection_query_amended_witness :
    countGetState
        (TiptapInstance.update propsAllCallbacks (Except.ok State.default)
          Msg._SelectionChanged).1 = 1 ∧
    selectionEmissions
        (TiptapInstance.update propsAllCallbacks (Except.ok State.default)
          Msg._SelectionChanged).1 =
      [{ state := (fetch_selection_state propsAllCallbacks
            (Except.ok State.default)).2 }] :=
  selection_query_amended propsAllCallbacks (Except.ok State.default) rfl

/-- Claim C3: whenever the `js_tiptap::get_state` query returns a
malformed value (a deserialization error), the `Selection` emitted to
the registered `on_selection_change` callback equals the default/empty
`SelectionState`, the error is logged, and nothing reaching the host
carries the error: the only host-visible effect is the emission of the
default selection. -/
theorem malformed_state_defaults (props : Props) (err : String)
    (h : props.on_selection_change = some ()) :
    TiptapInstance.update props (Except.error err) Msg._SelectionChanged =
      ([Effect.jsGetState props.id, Effect.logError err,
        Effect.emitSelection { state := State.default }], false) ∧
    selectionEmissions
        (TiptapInstance.update props (Except.error err) Msg._SelectionChanged).1 =
      [{ state := State.default }] ∧
    hostEmissions
        (TiptapInstance.update props (Except.error err) Msg._SelectionChanged).1 =
      [Effect.emitSelection { state := State.default }] := by
  refine ⟨?_, ?_, ?_⟩ <;>
    simp [TiptapInstance.update, h, fetch_selection_state, selectionEmissions,
      hostEmissions]

/-- Witness for claim C3 at a concrete input. -/
theorem malformed_state_defaults_witness :
    TiptapInstance.update propsAllCallbacks (Except.error "bad shape")
        Msg._SelectionChanged =
      ([Effect.jsGetState propsAllCallbacks.id, Effect.logError "bad shape",
        Effect.emitSelection { state := State.default }], false) ∧
    selectionEmissions
        (TiptapInstance.update propsAllCallbacks (Except.error "bad shape")
          Msg._SelectionChanged).1 =
      [{ state := State.default }] ∧
    hostEmissions
        (TiptapInstance.update propsAllCallbacks (Except.error "bad shape")
          Msg._SelectionChanged).1 =
      [Effect.emitSelection { state := State.default }] :=
  malformed_state_defaults propsAllCallbacks "bad shape" rfl

/-- Claim C4: mounting with `disabled = false` and
`content = "<p>start</p>"` performs exactly one `js_tiptap::create`
call, with `editable = true` (the negation of `disabled`) and
`initialContent = "<p>start</p>"`, followed by the emission of
`Some(handle)` to `on_link`. -/
theorem mount_scenario (props : Props) (hd : props.disabled = false)
    (hc : props.content = "<p>start</p>") :
    mountTrace props =
      [Effect.emitLink none,
       Effect.jsCreate props.id "<p>start</p>" true
         ClosureTok.changeAdapter ClosureTok.selectionAdapter,
       Effect.emitLink (some Scope.mk)] ∧
    countJsCreate (mountTrace props) = 1 := by
  constructor <;>
    simp [mountTrace, TiptapInstance.create, TiptapInstance.rendered, hd, hc,
      countJsCreate]

/-- Witness for claim C4 at a concrete input. -/
theorem mount_scenario_witness :
    mountTrace propsAllCallbacks =
      [Effect.emitLink none,
       Effect.jsCreate propsAllCallbacks.id "<p>start</p>" true
         ClosureTok.changeAdapter ClosureTok.selectionAdapter,
       Effect.emitLink (some Scope.mk)] ∧
    countJsCreate (mountTrace propsAllCallbacks) = 1 :=
  mount_scenario propsAllCallbacks rfl rfl

/-- Claim C5: every toggle/set command message dispatched while attached
makes exactly one call to the matching `js_tiptap` bridge function,
passing the component's bound DOM id and the command's arguments
unmodified, and returns `true` (requests a re-render). -/
theorem command_dispatch (props : Props) (res : Except String State)
    (r : ImageResource) :
    TiptapInstance.update props res Msg.H1 =
      ([Effect.jsToggleHeading props.id HeadingLevel.H1], true) ∧
    TiptapInstance.update props res Msg.H2 =
      ([Effect.jsToggleHeading props.id HeadingLevel.H2], true) ∧
    TiptapInstance.update props res Msg.H3 =
      ([Effect.jsToggleHeading props.id HeadingLevel.H3], true) ∧
    TiptapInstance.update props res Msg.Paragraph =
      ([Effect.jsSetParagraph props.id], true) ∧
    TiptapInstance.update props res Msg.Bold =
      ([Effect.jsToggleBold props.id], true) ∧
    TiptapInstance.update props res Msg.Italic =
      ([Effect.jsToggleItalic props.id], true) ∧
    TiptapInstance.update props res Msg.Strike =
      ([Effect.jsToggleStrike props.id], true) ∧
    TiptapInstance.update props res Msg.Blockquote =
      ([Effect.jsToggleBlockquote props.id], true) ∧
    TiptapInstance.update props res Msg.Highlight =
      ([Effect.jsToggleHighlight props.id], true) ∧
    TiptapInstance.update props res Msg.AlignLeft =
      ([Effect.jsSetTextAlignLeft props.id], true) ∧
    TiptapInstance.update props res Msg.AlignCenter =
      ([Effect.jsSetTextAlignCenter props.id], true) ∧
    TiptapInstance.update props res Msg.AlignRight =
      ([Effect.jsSetTextAlignRight props.id], true) ∧
    TiptapInstance.update props res Msg.AlignJustify =
      ([Effect.jsSetTextAlignJustify props.id], true) ∧
    TiptapInstance.update props res (Msg.SetImage r) =
      ([Effect.jsSetImage props.id r.url r.alt r.title], true) :=
  ⟨rfl, rfl, rfl, rfl, rfl, rfl, rfl, rfl, rfl, rfl, rfl, rfl, rfl, rfl⟩

/-- Claim C6: for every `ImageResource`, handling `Msg::SetImage` makes
exactly one bridge call `js_tiptap::set_image(id, url, alt, title)` with
the resource's `url`, `alt` and `title` fields in that order,
unmodified. -/
theorem set_image_dispatch (props : Props) (res : Except String State)
    (resource : ImageResource) :
    TiptapInstance.update props res (Msg.SetImage resource) =
      ([Effect.jsSetImage props.id resource.url resource.alt resource.title],
       true) :=
  rfl

/-- Claim C7: for every string, handling `_ContentChanged` with a
registered `on_content_change` callback emits exactly one
`Content { content }` carrying the string unchanged, and nothing else. -/
theorem content_changed_passthrough (props : Props) (res : Except String State)
    (s : String) (h : props.on_content_change = some ()) :
    TiptapInstance.update props res (Msg._ContentChanged s) =
      ([Effect.emitContent { content := s }], false) ∧
    contentEmissions
        (TiptapInstance.update props res (Msg._ContentChanged s)).1 =
      [{ content := s }] := by
  constructor <;> simp [TiptapInstance.update, h, contentEmissions]

/-- Witness for claim C7 at a concrete input. -/
theorem content_changed_passthrough_witness :
    TiptapInstance.update propsAllCallbacks (Except.ok State.default)
        (Msg._ContentChanged "<p>hello</p>") =
      ([Effect.emitContent { content := "<p>hello</p>" }], false) ∧
    contentEmissions
        (TiptapInstance.update propsAllCallbacks (Except.ok State.default)
          (Msg._ContentChanged "<p>hello</p>")).1 =
      [{ content := "<p>hello</p>" }] :=
  content_changed_passthrough propsAllCallbacks (Except.ok State.default)
    "<p>hello</p>" rfl

/-- Claim C8: unmounting (the `destroy` lifecycle method) always emits a
final `None` to `on_link`, for every prior state of the component. -/
theorem destroy_emits_none (self : TiptapInstance) (props : Props) :
    self.destroy props = [Effect.emitLink none] ∧
    linkEmissions (self.destroy props) = [none] :=
  ⟨rfl, rfl⟩

/-- Claim C9: `update` returns `false` for both internal notification
messages (`_SelectionChanged`, `_ContentChanged`) and `true` for every
toggle/set command message: the re-render flag equals the negation of
`Msg.isInternal`. -/
theorem update_rerender_flag (props : Props) (res : Except String State)
    (msg : Msg) :
    (TiptapInstance.update props res msg).2 = !msg.isInternal := by
  cases msg <;> try rfl
  · rcases h : props.on_selection_change with _ | u <;>
      simp [TiptapInstance.update, h, Msg.isInternal]
  · rcases h : props.on_content_change with _ | u <;>
      simp [TiptapInstance.update, h, Msg.isInternal]

/-- Claim C10: whenever `on_selection_change` is unregistered, handling
`_SelectionChanged` performs no `js_tiptap::get_state` query and emits
nothing; likewise, whenever `on_content_change` is unregistered, handling
`_ContentChanged` emits nothing — each message is then a complete no-op
apart from returning `false`, each conditioned only on its own callback
being absent. -/
theorem unregistered_callbacks_noop (props : Props) (res : Except String State)
    (s : String) :
    (props.on_selection_change = none →
      TiptapInstance.update props res Msg._SelectionChanged = ([], false) ∧
      countGetState
          (TiptapInstance.update props res Msg._SelectionChanged).1 = 0) ∧
    (props.on_content_change = none →
      TiptapInstance.update props res (Msg._ContentChanged s) = ([], false)) := by
  constructor
  · intro h1
    constructor <;> simp [TiptapInstance.update, h1, countGetState]
  · intro h2
    simp [TiptapInstance.update, h2]

/-- Witness for claim C10 at a concrete input, discharging each
hypothesis separately. -/
theorem unregistered_callbacks_noop_witness :
    TiptapInstance.update propsNoCallbacks (Except.ok State.default)
        Msg._SelectionChanged = ([], false) ∧
    countGetState
        (TiptapInstance.update propsNoCallbacks (Except.ok State.default)
          Msg._SelectionChanged).1 = 0 ∧
    TiptapInstance.update propsNoCallbacks (Except.ok State.default)
        (Msg._ContentChanged "x") = ([], false) :=
  ⟨((unregistered_callbacks_noop propsNoCallbacks (Except.ok State.default)
        "x").1 rfl).1,
   ((unregistered_callbacks_noop propsNoCallbacks (Except.ok State.default)
        "x").1 rfl).2,
   (unregistered_callbacks_noop propsNoCallbacks (Except.ok State.default)
        "x").2 rfl⟩

end YewTiptap
